import Mathlib

/-!
Verification of the CookieGL retained-mode 2D scene graph library.

This file gives a shallow embedding of the parts of the library that the
checked properties are about: the canvas hit-testing and event dispatch
(`CGLCanvas.#childrenAt`, the click listener, the hover/cursor step of
`CGLCanvas.#draw`), child attachment (`append`/`prepend`), the render-loop
control (`start`/`stop`), the kinematic integration step (`CGLObject.__move`),
the rectangle width setter and the polygon vertices setter, the animated
sprite frame selection (`CGLFrames.__move`), and the ellipse containment test
(`CGLEllipse.__isPointInBounds`).

JavaScript numbers are idealized as exact rationals; where the IEEE-754
special values Infinity and NaN are essential (division by a zero axis length
in the ellipse test) they are modelled explicitly by the `JSNum` type.
Timestamps (`Date.now()`) are passed in explicitly as parameters.
-/

namespace CookieGL

/-- Failures raised by the library: `cglException` models a thrown
`CGLException`, and `referenceError` models the JavaScript `ReferenceError`
raised when an unbound identifier is evaluated. -/
inductive CGLErr where
  | cglException (msg : String)
  | referenceError (ident : String)
deriving DecidableEq

/-- Interaction-relevant state of a `CGLObject` child of a `CGLCanvas`.
`bounds` is the `__isPointInBounds` virtual method supplied by the concrete
subclass; `clickListeners` and `hoverListeners` hold the listener ids of
`#eventListeners["click"]` and `#eventListeners["hover"]` in registration
order; `canvasID` is `null` (`none`) until the object is attached. -/
structure CGLChild where
  id : Nat
  canvasID : Option Nat := none
  isVisible : Bool := true
  ignoreClicks : Bool := false
  cursor : String := ""
  clickListeners : List Nat := []
  hoverListeners : List Nat := []
  bounds : ℚ → ℚ → Bool

/-- Eligibility test of the loop body of `CGLCanvas.#childrenAt`: a child is
skipped when `(!child.isVisible && excludeInvisible) ||
(child.ignoreClicks && excludeClickOmitted)`, and it is collected when it is
not skipped and `child.__isPointInBounds(x, y)` holds. -/
def childEligible (x y : ℚ) (excludeInvisible excludeClickOmitted : Bool)
    (child : CGLChild) : Bool :=
  (!((!child.isVisible && excludeInvisible) || (child.ignoreClicks && excludeClickOmitted)))
    && child.bounds x y

/-- Embedding of `CGLCanvas.#childrenAt(x, y, excludeInvisible,
excludeClickOmitted)`: walks `#children` in paint order and collects every
non-skipped child whose containment test holds, preserving order. -/
def childrenAt (children : List CGLChild) (x y : ℚ)
    (excludeInvisible excludeClickOmitted : Bool) : List CGLChild :=
  children.filter (childEligible x y excludeInvisible excludeClickOmitted)

/-- Embedding of the click listener bound in the `CGLCanvas` constructor:
it computes `children = #childrenAt(pos.x, pos.y, true, true)`, returns if
the list is empty, and otherwise calls
`children[children.length-1].__handleEvent("click", ...)`, which invokes
every click listener of that single child in registration order. The result
is the list of (child id, listener id) pairs whose callbacks are invoked,
in invocation order. The point (x, y) is already converted into the
bottom-left coordinate frame, as done by the listener. -/
def clickDispatch (children : List CGLChild) (x y : ℚ) : List (Nat × Nat) :=
  let cs := childrenAt children x y true true
  match cs.getLast? with
  | none => []
  | some c => c.clickListeners.map fun l => (c.id, l)

/-- The child that hover resolution selects: the last element of
`#childrenAt(mousePos.x, mousePos.y, true, true)`, as read by the hover step
of `CGLCanvas.#draw`. -/
def hoverTarget (children : List CGLChild) (x y : ℚ) : Option CGLChild :=
  (childrenAt children x y true true).getLast?

/-- Embedding of the hover step at the end of `CGLCanvas.#draw`, executed when
`#mousePos` is non-null: if the `#childrenAt(x, y, true, true)` list is
non-empty the last child receives the hover event (all of its hover listeners
are invoked) and `canvas.style.cursor` is set to the cursor token of that
child;
otherwise `canvas.style.cursor` is set to the empty string. Returns the
invoked (child id, listener id) pairs and the cursor value written. -/
def hoverPass (children : List CGLChild) (x y : ℚ) : List (Nat × Nat) × String :=
  let cs := childrenAt children x y true true
  let notes := match cs.getLast? with
    | none => []
    | some c => c.hoverListeners.map fun l => (c.id, l)
  let cur := match cs.getLast? with
    | none => ""
    | some c => c.cursor
  (notes, cur)

/-- Loop-control and child-list state of a `CGLCanvas`: `refreshTimeout` is
`null` (`none`) when no render pass is scheduled, and holds the pending timer
id otherwise. -/
structure CGLCanvasS where
  id : Nat
  children : List CGLChild := []
  refreshTimeout : Option Nat := none

/-- Embedding of `CGLCanvas.append(obj)`: throws when `obj.canvasID` is
non-null (the object already belongs to a canvas); otherwise pushes the
object onto the tail of `#children` and sets its `canvasID`. The result is
the state of the canvas, the state of the object, and the raised error if
any; the guard runs before any mutation, so on the error path both are
returned unchanged. The `obj instanceof CGLObject` guard is satisfied by
every value of type `CGLChild`. -/
def appendChild (cv : CGLCanvasS) (obj : CGLChild) :
    CGLCanvasS × CGLChild × Option CGLErr :=
  match obj.canvasID with
  | some k =>
    (cv, obj, some (.cglException
      ("CGLObject already belongs to a canvas with id: " ++ toString k)))
  | none =>
    let obj2 := { obj with canvasID := some cv.id }
    ({ cv with children := cv.children ++ [obj2] }, obj2, none)

/-- Embedding of `CGLCanvas.prepend(obj)`: identical to `append` except the
object is inserted at the head of `#children` (paints below everything). -/
def prependChild (cv : CGLCanvasS) (obj : CGLChild) :
    CGLCanvasS × CGLChild × Option CGLErr :=
  match obj.canvasID with
  | some k =>
    (cv, obj, some (.cglException
      ("CGLObject already belongs to a canvas with id: " ++ toString k)))
  | none =>
    let obj2 := { obj with canvasID := some cv.id }
    ({ cv with children := obj2 :: cv.children }, obj2, none)

/-- Embedding of `CGLCanvas.stop()`: returns immediately when
`#refreshTimeout` is already null, otherwise clears the pending timeout and
nulls the field. Never throws. -/
def canvasStop (cv : CGLCanvasS) : CGLCanvasS :=
  match cv.refreshTimeout with
  | none => cv
  | some _ => { cv with refreshTimeout := none }

/-- Embedding of the `CGLCanvas.isRunning` getter:
`#refreshTimeout !== null`. -/
def canvasIsRunning (cv : CGLCanvasS) : Bool :=
  cv.refreshTimeout.isSome

/-- Embedding of `CGLCanvas.start()` projected onto loop-control state: when
`isRunning` it emits a warning (`cglWarn`) and returns without calling
`#draw`, so no second loop is scheduled; otherwise it runs the first `#draw`
pass, which ends by scheduling the next pass, storing the fresh timer id
`tid` in `#refreshTimeout`. The returned Bool records whether the warning
was emitted. -/
def canvasStart (cv : CGLCanvasS) (tid : Nat) : CGLCanvasS × Bool :=
  if canvasIsRunning cv then (cv, true)
  else ({ cv with refreshTimeout := some tid }, false)

/-- Truncation toward zero on rationals, as performed by the JavaScript `%`
operator when it computes the implicit quotient. -/
def jsTrunc (q : ℚ) : ℤ :=
  if 0 ≤ q then ⌊q⌋ else ⌈q⌉

/-- JavaScript remainder `a % b` on (idealized, finite) numbers with `b ≠ 0`:
`a - b * trunc(a / b)`; the result carries the sign of the dividend and has
magnitude strictly below `|b|`. -/
def jsMod (a b : ℚ) : ℚ :=
  a - b * (jsTrunc (a / b) : ℚ)

/-- Kinematic state of a `CGLObject`: position, velocity, acceleration,
rotation (degrees), angular velocity and acceleration, and the `#lastUpdate`
timestamp (milliseconds). -/
structure ObjState where
  x : ℚ
  y : ℚ
  velocityX : ℚ := 0
  velocityY : ℚ := 0
  accelerationX : ℚ := 0
  accelerationY : ℚ := 0
  rotation : ℚ := 0
  angularVelocity : ℚ := 0
  angularAcceleration : ℚ := 0
  lastUpdate : ℚ
deriving DecidableEq

/-- Embedding of `CGLObject.__move()` from the richest revision
(src/unnamed/part_000 lines 285-302): `frameGap = (now - #lastUpdate) / 1e3`
seconds; velocity advances by acceleration times frameGap, then position by
the updated velocity times frameGap; angular velocity advances by angular
acceleration times frameGap, rotation by the updated angular velocity times
frameGap followed by `rotation %= 360`; finally `#lastUpdate` is set to the
current timestamp. Both `Date.now()` reads are modelled by the single
parameter `now`. -/
def objMove (o : ObjState) (now : ℚ) : ObjState :=
  let frameGap := (now - o.lastUpdate) / 1000
  let vx := o.velocityX + o.accelerationX * frameGap
  let vy := o.velocityY + o.accelerationY * frameGap
  let av := o.angularVelocity + o.angularAcceleration * frameGap
  { o with
    velocityX := vx
    velocityY := vy
    x := o.x + vx * frameGap
    y := o.y + vy * frameGap
    angularVelocity := av
    rotation := jsMod (o.rotation + av * frameGap) 360
    lastUpdate := now }

/-- State of a `CGLRect` (a `CGLPoly` subclass): its own `#width`/`#height`
and the inherited `#vertices` and cached centroid of `CGLPoly`. -/
structure CGLRectS where
  x : ℚ
  y : ℚ
  width : ℚ
  height : ℚ
  vertices : List (ℚ × ℚ)
  centroidX : ℚ
  centroidY : ℚ
deriving DecidableEq

/-- Centroid computation of the `CGLPoly` constructor: the mean over the
vertices of each vertex offset plus the anchor position. -/
def polyCentroid (x y : ℚ) (vs : List (ℚ × ℚ)) : ℚ × ℚ :=
  ((vs.map (fun v => v.1 + x)).sum / (vs.length : ℚ),
   (vs.map (fun v => v.2 + y)).sum / (vs.length : ℚ))

/-- Embedding of the `CGLPoly` `vertices` setter (src/unnamed/part_000 lines
415-433). Its validation guard is
`if (v === null || v.constructor !== Array || vertices.length < 3)`: the
identifier `vertices` is unbound in the setter (the parameter is named `v`,
and no global `vertices` exists in any script of the repository). For every
argument representable here the first two disjuncts are false, so evaluation
reaches `vertices.length` and throws `ReferenceError: vertices is not
defined` before any field is written. -/
def polySetVertices (_r : CGLRectS) (_v : List (ℚ × ℚ)) : Except CGLErr CGLRectS :=
  Except.error (.referenceError "vertices")

/-- Embedding of the `CGLRect` constructor: validates that width and height
are nonnegative numbers, then delegates to the `CGLPoly` constructor with the
vertex list `[[0,0],[0,height],[width,height],[width,0]]` (which always has 4
vertices, so the polygon arity check passes) and records `#width` and
`#height`. -/
def cglRectNew (x y w h : ℚ) : Except CGLErr CGLRectS :=
  if w < 0 then
    .error (.cglException "Invalid width passed to CGLRect constructor.")
  else if h < 0 then
    .error (.cglException "Invalid height passed to CGLRect constructor.")
  else
    let vs : List (ℚ × ℚ) := [(0, 0), (0, h), (w, h), (w, 0)]
    let cen := polyCentroid x y vs
    .ok { x := x, y := y, width := w, height := h, vertices := vs,
          centroidX := cen.1, centroidY := cen.2 }

/-- Embedding of the `CGLRect` `width` setter (src/unnamed/part_000 lines
533-538): validates `w`, writes `#width`, then assigns
`this.vertices = [[0,0],[0,this.height],[w,this.height],[w,0]]`, which enters
the `CGLPoly` vertices setter. The result pairs the object state after the
call with the error raised, if any: when the vertices setter throws, `#width`
has already been mutated while the vertex list is untouched. -/
def rectSetWidth (r : CGLRectS) (w : ℚ) : CGLRectS × Option CGLErr :=
  if w < 0 then
    (r, some (.cglException "Invalid width passed to CGLRect."))
  else
    let r2 := { r with width := w }
    match polySetVertices r2 [(0, 0), (0, r.height), (w, r.height), (w, 0)] with
    | .error e => (r2, some e)
    | .ok r3 => (r3, none)

/-- Per-entry frame times built by the `CGLFrames` constructor when
`frameTime` is a single number: `pattern.map(() => frameTime)`. -/
def cglFramesFrameTimes (frameTime : Nat) (pat : List Nat) : List Nat :=
  pat.map fun _ => frameTime

/-- Total cycle duration computed by the `CGLFrames` constructor when
`frameTime` is a single number: `frameTime * pattern.length`. -/
def cglFramesDuration (frameTime : Nat) (pat : List Nat) : Nat :=
  frameTime * pat.length

/-- Loop of `CGLFrames.__move()`:
`while (interval >= frameTimes[frameIndex])` subtracts the frame time of the
current index and steps `frameIndex = (frameIndex + 1) % pattern.length`.
The `fuel` argument bounds the iterations so the model stays total (the
JavaScript loop can spin forever when frame times are zero); `none` models
non-termination within the given fuel. When `frameTimes[frameIndex]` is out
of range the JavaScript comparison `interval >= undefined` is false and the
loop exits. Returns the remaining interval and the selected frame index. -/
def frameLoop (fuel : Nat) (interval idx : Nat) (frameTimes : List Nat)
    (patLen : Nat) : Option (Nat × Nat) :=
  match fuel with
  | 0 => none
  | f + 1 =>
    match frameTimes.get? idx with
    | none => some (interval, idx)
    | some t =>
      if t ≤ interval then frameLoop f (interval - t) ((idx + 1) % patLen) frameTimes patLen
      else some (interval, idx)

/-- Embedding of the frame-selection step of `CGLFrames.__move()`
(src/unnamed/part_000 lines 682-697): resets `#frameIndex` to 0, computes
`interval = (Date.now() - #createdTimestamp) % #duration`, walks the pattern
accumulating per-frame durations, and swaps the image source to
`#frameURLs[#pattern[#frameIndex]]`. Returns the source path assigned, or
`none` when the lookup hits an out-of-range index (JavaScript `undefined`,
which the `src` setter then rejects) or the loop fuel runs out. -/
def framesSelect (now created : Nat) (frameTimes pat : List Nat)
    (frameURLs : List String) (duration : Nat) : Option String :=
  let interval := (now - created) % duration
  match frameLoop (interval + pat.length + 1) interval 0 frameTimes pat.length with
  | none => none
  | some (_, idx) =>
    match pat.get? idx with
    | none => none
    | some p => frameURLs.get? p

/-- JavaScript number values needed to model division by a zero axis length:
finite values (idealized as exact rationals), the two infinities, and NaN. -/
inductive JSNum where
  | fin (q : ℚ)
  | posInf
  | negInf
  | nan
deriving DecidableEq

/-- JavaScript division of finite numbers: exact when the divisor is nonzero;
`0/0` is NaN; a nonzero dividend over (positive) zero gives the infinity
carrying the sign of the dividend. -/
def jsDiv (a b : ℚ) : JSNum :=
  if b = 0 then
    if a = 0 then .nan else if 0 < a then .posInf else .negInf
  else .fin (a / b)

/-- JavaScript squaring (`** 2`): squares of either infinity are positive
infinity, NaN propagates, finite squares are exact. -/
def jsSq : JSNum → JSNum
  | .fin q => .fin (q * q)
  | .posInf => .posInf
  | .negInf => .posInf
  | .nan => .nan

/-- JavaScript addition on `JSNum`: NaN propagates, opposite infinities give
NaN, an infinity absorbs finite values, finite sums are exact. -/
def jsAdd : JSNum → JSNum → JSNum
  | .nan, _ => .nan
  | _, .nan => .nan
  | .posInf, .negInf => .nan
  | .negInf, .posInf => .nan
  | .posInf, _ => .posInf
  | _, .posInf => .posInf
  | .negInf, _ => .negInf
  | _, .negInf => .negInf
  | .fin a, .fin b => .fin (a + b)

/-- JavaScript `<=` on `JSNum`: any comparison with NaN is false, negative
infinity is below everything else, everything non-NaN is at most positive
infinity. -/
def jsLe : JSNum → JSNum → Bool
  | .nan, _ => false
  | _, .nan => false
  | .negInf, _ => true
  | _, .negInf => false
  | _, .posInf => true
  | .posInf, _ => false
  | .fin a, .fin b => decide (a ≤ b)

/-- Embedding of `CGLEllipse.__isPointInBounds(x, y)` (src/unnamed/part_000
lines 495-503): with center `(this.x + horizLength/2, this.y + vertLength/2)`
it tests
`(2*(cos*dx + sin*dy)/horizLength)^2 + (2*(sin*dx - cos*dy)/vertLength)^2 <= 1`.
The parameters `s` and `c` stand for the finite values
`Math.sin(-rotation*PI/180)` and `Math.cos(-rotation*PI/180)`; they are kept
abstract (the theorems below quantify over them) since transcendental
functions have no exact rational form. All arithmetic before the divisions is
finite; the divisions are the only place Infinity or NaN can arise. -/
def ellipseContains (s c ex ey hL vL px py : ℚ) : Bool :=
  let cX := ex + hL / 2
  let cY := ey + vL / 2
  jsLe
    (jsAdd (jsSq (jsDiv (2 * (c * (px - cX) + s * (py - cY))) hL))
           (jsSq (jsDiv (2 * (s * (px - cX) - c * (py - cY))) vL)))
    (.fin 1)

/-- Validation of the `CGLEllipse` constructor projected onto axis lengths:
it throws only when an axis length is negative (`horizLength < 0` or
`vertLength < 0`), so a zero axis length is accepted. -/
def ellipseCtorAccepts (hL vL : ℚ) : Bool :=
  !(decide (hL < 0)) && !(decide (vL < 0))

/-- Concrete shape appended first in the overlap scenario: visible,
click-eligible, containing every point, with one click listener. -/
def childA : CGLChild := { id := 10, clickListeners := [100], bounds := fun _ _ => true }

/-- Concrete shape appended second in the overlap scenario: visible,
click-eligible, containing every point, with one click listener. -/
def childB : CGLChild := { id := 20, clickListeners := [200], bounds := fun _ _ => true }

/-- Concrete visible shape with the ignore-clicks flag set, containing every
point and carrying one hover listener. -/
def ignoredHoverChild : CGLChild :=
  { id := 1, isVisible := true, ignoreClicks := true, cursor := "pointer",
    hoverListeners := [7], bounds := fun _ _ => true }

/-- Concrete visible, interactive shape with cursor token "grab", containing
every point and carrying one hover listener. -/
def hoverableChild : CGLChild :=
  { id := 2, cursor := "grab", hoverListeners := [5], bounds := fun _ _ => true }

/-- Concrete shape already attached to the canvas with id 42. -/
def attachedObj : CGLChild := { id := 3, canvasID := some 42, bounds := fun _ _ => false }

/-- Concrete canvas with no children and no scheduled pass. -/
def emptyCanvas : CGLCanvasS := { id := 1 }

/-- Concrete canvas whose loop is running (a pass with timer id 5 is
scheduled). -/
def runningCanvas : CGLCanvasS := { id := 4, refreshTimeout := some 5 }

/-- Concrete kinematic state: at x = 0 with velocity.x = 10 px/s, zero
acceleration, last updated at timestamp 1000 ms. -/
def obj4 : ObjState := { x := 0, y := 0, velocityX := 10, lastUpdate := 1000 }

/-- Concrete kinematic state: rotation 0 with angular velocity -90 deg/s,
last updated at timestamp 0 ms. -/
def spinObj : ObjState := { x := 0, y := 0, angularVelocity := -90, lastUpdate := 0 }

/-- The state `new CGLRect(0, 0, 5, 3)` constructs: width 5, height 3, the
four axis-aligned vertices, and the cached centroid. -/
def rect53 : CGLRectS :=
  { x := 0, y := 0, width := 5, height := 3,
    vertices := [(0, 0), (0, 3), (5, 3), (5, 0)], centroidX := 5/2, centroidY := 3/2 }

/-- The JavaScript remainder with a positive divisor lands in the open
interval (-b, b): the quotient is truncated toward zero, so the remainder
keeps the sign of the dividend and has magnitude below b. -/
theorem jsMod_bounds (a b : ℚ) (hb : 0 < b) : -b < jsMod a b ∧ jsMod a b < b := by
  unfold jsMod jsTrunc
  have hbne : b ≠ 0 := ne_of_gt hb
  have ha : a = b * (a / b) := by field_simp
  by_cases h : 0 ≤ a / b
  · simp only [if_pos h]
    have h1 : (⌊a / b⌋ : ℚ) ≤ a / b := Int.floor_le _
    have h2 : a / b < ⌊a / b⌋ + 1 := Int.lt_floor_add_one _
    constructor
    · nlinarith [mul_nonneg (le_of_lt hb) (sub_nonneg.mpr h1)]
    · nlinarith [mul_lt_mul_of_pos_left (show a / b - (⌊a / b⌋ : ℚ) < 1 by linarith) hb]
  · simp only [if_neg h]
    have h1 : a / b ≤ (⌈a / b⌉ : ℚ) := Int.le_ceil _
    have h2 : (⌈a / b⌉ : ℚ) < a / b + 1 := Int.ceil_lt_add_one _
    constructor
    · nlinarith [mul_lt_mul_of_pos_left (show a / b - (⌈a / b⌉ : ℚ) > -1 by linarith) hb]
    · nlinarith [mul_nonneg (le_of_lt hb) (sub_nonneg.mpr h1)]

/-- Filtering a list that ends in an element satisfying the predicate
followed only by elements failing it makes that element the last survivor. -/
theorem getLast?_filter_top (p : CGLChild → Bool) (l1 l2 : List CGLChild) (B : CGLChild)
    (hB : p B = true) (h2 : ∀ c ∈ l2, p c = false) :
    ((l1 ++ B :: l2).filter p).getLast? = some B := by
  have hnil : l2.filter p = [] := List.filter_eq_nil_iff.mpr (by
    intro c hc
    simp [h2 c hc])
  rw [List.filter_append, List.filter_cons_of_pos hB, hnil]
  rw [List.getLast?_append_cons]
  rfl

/-- The last element of a list is a member of it. -/
theorem mem_of_getLast?_eq {α : Type} (l : List α) (c : α) (h : l.getLast? = some c) :
    c ∈ l := by
  obtain ⟨hne, hc⟩ := List.mem_getLast?_eq_getLast (Option.mem_def.mpr h)
  exact hc ▸ List.getLast_mem hne

/-- Dividing any finite numerator by zero and squaring gives positive
infinity (nonzero numerator) or NaN (zero numerator). -/
theorem jsSq_jsDiv_zero (n : ℚ) :
    jsSq (jsDiv n 0) = .posInf ∨ jsSq (jsDiv n 0) = .nan := by
  unfold jsDiv jsSq
  by_cases h : n = 0
  · simp [h]
  · by_cases h2 : 0 < n <;> simp [h, h2]

/-- Adding anything to positive infinity or NaN on the left yields positive
infinity or NaN. -/
theorem jsAdd_top_left (t u : JSNum) (ht : t = .posInf ∨ t = .nan) :
    jsAdd t u = .posInf ∨ jsAdd t u = .nan := by
  rcases ht with h | h <;> subst h <;> cases u <;> simp [jsAdd]

/-- Adding positive infinity or NaN on the right of a non-negative-infinity
value yields positive infinity or NaN. -/
theorem jsAdd_top_right (t u : JSNum) (ht : t = .posInf ∨ t = .nan)
    (hu : u ≠ .negInf) : jsAdd u t = .posInf ∨ jsAdd u t = .nan := by
  rcases ht with h | h <;> subst h <;> cases u <;> simp [jsAdd] at hu ⊢

/-- A JavaScript square is never negative infinity. -/
theorem jsSq_ne_negInf (w : JSNum) : jsSq w ≠ .negInf := by
  cases w <;> simp [jsSq]

/-- Neither positive infinity nor NaN is `<= 1` in JavaScript. -/
theorem jsLe_top_one (t : JSNum) (ht : t = .posInf ∨ t = .nan) :
    jsLe t (.fin 1) = false := by
  rcases ht with h | h <;> subst h <;> rfl

/-- Claim C1: for every scene whose paint order contains two visible,
click-eligible shapes A (appended first) and B (appended second) that both
contain the click point, where no click-eligible shape after B contains the
point, resolving a click at that point dispatches the click event to the
subscribers of B only, and no subscriber of A is invoked. -/
theorem click_dispatch_topmost_only (pre mid post : List CGLChild) (A B : CGLChild) (x y : ℚ)
    (hAv : A.isVisible = true) (hAg : A.ignoreClicks = false) (hAb : A.bounds x y = true)
    (hBv : B.isVisible = true) (hBg : B.ignoreClicks = false) (hBb : B.bounds x y = true)
    (hpost : ∀ c ∈ post, c.isVisible = false ∨ c.ignoreClicks = true ∨ c.bounds x y = false)
    (hid : A.id ≠ B.id) :
    clickDispatch (pre ++ A :: (mid ++ B :: post)) x y
      = B.clickListeners.map (fun l => (B.id, l))
    ∧ ∀ l, (A.id, l) ∉ clickDispatch (pre ++ A :: (mid ++ B :: post)) x y := by
  have hpostf : ∀ c ∈ post, childEligible x y true true c = false := by
    intro c hc
    rcases hpost c hc with h | h | h <;> simp [childEligible, h]
  have hBt : childEligible x y true true B = true := by
    simp [childEligible, hBv, hBg, hBb]
  have hlast : (childrenAt (pre ++ A :: (mid ++ B :: post)) x y true true).getLast? = some B := by
    unfold childrenAt
    have hassoc : pre ++ A :: (mid ++ B :: post) = (pre ++ A :: mid) ++ B :: post := by simp
    rw [hassoc]
    exact getLast?_filter_top _ _ _ _ hBt hpostf
  constructor
  · simp only [clickDispatch, hlast]
  · intro l hmem
    simp only [clickDispatch, hlast] at hmem
    simp only [List.mem_map] at hmem
    obtain ⟨a, _, ha⟩ := hmem
    exact hid (congrArg Prod.fst ha).symm

/-- Witness for C1: in the two-shape scene [childA, childB] with both shapes
containing the origin, a click at the origin invokes exactly the listener of
childB, and no pair carrying the id of childA is invoked. -/
theorem click_dispatch_topmost_only_witness :
    clickDispatch [childA, childB] 0 0 = [(20, 200)]
    ∧ ∀ l, (10, l) ∉ clickDispatch [childA, childB] 0 0 := by
  have h := click_dispatch_topmost_only [] [] [] childA childB 0 0 rfl rfl rfl rfl rfl rfl
    (by intro c hc; cases hc) (by decide)
  simpa [childA, childB] using h

/-- Claim C2 (code bug): constructing `CGLRect(0, 0, 5, 3)` succeeds, but
setting its width to 7 throws `ReferenceError` from the `CGLPoly` vertices
setter (whose guard reads the unbound identifier `vertices`); afterwards the
width field reads back 7 while the vertex list is NOT regenerated: it remains
the old `[[0,0],[0,3],[5,3],[5,0]]` instead of the `[[0,0],[0,3],[7,3],[7,0]]`
the claim requires. -/
theorem rect_width_set_throws_referenceError :
    cglRectNew 0 0 5 3 = .ok rect53
    ∧ rectSetWidth rect53 7
        = ({ rect53 with width := 7 }, some (.referenceError "vertices"))
    ∧ (rectSetWidth rect53 7).1.width = 7
    ∧ (rectSetWidth rect53 7).1.vertices = [(0, 0), (0, 3), (5, 3), (5, 0)]
    ∧ (rectSetWidth rect53 7).1.vertices ≠ [(0, 0), (0, 3), (7, 3), (7, 0)] := by
  refine ⟨?_, ?_, ?_, ?_, ?_⟩
  · unfold cglRectNew polyCentroid rect53
    norm_num
  · unfold rectSetWidth polySetVertices rect53
    norm_num
  · unfold rectSetWidth polySetVertices rect53
    norm_num
  · unfold rectSetWidth polySetVertices rect53
    norm_num
  · decide

/-- Claim C3: for an animated sprite with frames ["f0", "f1"], a shared
per-frame duration of 100 ms and pattern [0, 1], the cycle duration is
200 ms, and the frame-selection step of `CGLFrames.__move` (which reduces the
elapsed time modulo the cycle duration and walks the pattern accumulating
per-frame durations) selects "f0" at elapsed 50 ms, "f1" at elapsed 150 ms,
and wraps back to "f0" at elapsed 250 ms, for every creation timestamp. -/
theorem frames_selection_scenario (created : Nat) :
    cglFramesDuration 100 [0, 1] = 200
    ∧ framesSelect (created + 50) created (cglFramesFrameTimes 100 [0, 1]) [0, 1]
        ["f0", "f1"] (cglFramesDuration 100 [0, 1]) = some "f0"
    ∧ framesSelect (created + 150) created (cglFramesFrameTimes 100 [0, 1]) [0, 1]
        ["f0", "f1"] (cglFramesDuration 100 [0, 1]) = some "f1"
    ∧ framesSelect (created + 250) created (cglFramesFrameTimes 100 [0, 1]) [0, 1]
        ["f0", "f1"] (cglFramesDuration 100 [0, 1]) = some "f0" := by
  refine ⟨by decide, ?_, ?_, ?_⟩ <;>
    simp only [framesSelect, Nat.add_sub_cancel_left, cglFramesFrameTimes,
      cglFramesDuration] <;> decide

/-- Claim C4: one integration step with elapsed time dt = (now - lastUpdate)
/ 1000 seconds advances velocity by acceleration times dt, then position by
the UPDATED velocity times dt, and stores `now` as the last-update timestamp;
in particular a shape at x = 0 with velocity.x = 10 px/s and zero
acceleration, stepped 500 ms after its last update (dt = 0.5 s), ends at
x = 5 with a strictly later last-update timestamp. -/
theorem move_integrates_kinematics (o : ObjState) (now : ℚ) :
    (objMove o now).velocityX = o.velocityX + o.accelerationX * ((now - o.lastUpdate) / 1000)
    ∧ (objMove o now).velocityY = o.velocityY + o.accelerationY * ((now - o.lastUpdate) / 1000)
    ∧ (objMove o now).x = o.x + (objMove o now).velocityX * ((now - o.lastUpdate) / 1000)
    ∧ (objMove o now).y = o.y + (objMove o now).velocityY * ((now - o.lastUpdate) / 1000)
    ∧ (objMove o now).lastUpdate = now
    ∧ (o.x = 0 → o.velocityX = 10 → o.accelerationX = 0 → now = o.lastUpdate + 500 →
        (objMove o now).x = 5 ∧ o.lastUpdate < (objMove o now).lastUpdate) := by
  refine ⟨rfl, rfl, rfl, rfl, rfl, ?_⟩
  intro hx hv hacc hnow
  subst hnow
  constructor
  · simp only [objMove, hx, hv, hacc]
    norm_num
  · simp only [objMove]
    linarith

/-- Witness for C4: the concrete shape obj4 (x = 0, velocity.x = 10, zero
acceleration, last update at 1000 ms) stepped at now = 1500 ms ends at x = 5
with a strictly later stored timestamp. -/
theorem move_integrates_kinematics_witness :
    (objMove obj4 1500).x = 5 ∧ obj4.lastUpdate < (objMove obj4 1500).lastUpdate :=
  (move_integrates_kinematics obj4 1500).2.2.2.2.2 rfl rfl rfl (by norm_num [obj4])

/-- Counterexample to C5: the shape spinObj (rotation 0, angular velocity
-90 deg/s) after an integration step with dt = 1 s has rotation -90, which
does not lie in [0, 360): the JavaScript `%` operator keeps the sign of the
dividend. -/
theorem rotation_range_counterexample :
    (objMove spinObj 1000).rotation = -90
    ∧ ¬ (0 ≤ (objMove spinObj 1000).rotation) := by
  have h : (objMove spinObj 1000).rotation = -90 := by
    norm_num [objMove, spinObj, jsMod, jsTrunc]
  refine ⟨h, ?_⟩
  rw [h]
  norm_num

/-- Claim C5 (amended): after every integration step the rotation field lies
in the open interval (-360, 360); the JavaScript `rotation %= 360` bounds the
magnitude below 360 but keeps the sign of the updated rotation, so negative
angular motion can leave the rotation negative. -/
theorem rotation_wrapped_to_open_interval (o : ObjState) (now : ℚ) :
    -360 < (objMove o now).rotation ∧ (objMove o now).rotation < 360 :=
  jsMod_bounds (o.rotation +
    (o.angularVelocity + o.angularAcceleration * ((now - o.lastUpdate) / 1000)) *
      ((now - o.lastUpdate) / 1000)) 360 (by norm_num)

/-- Counterexample to C6: a visible shape with the ignore-clicks flag set
that contains the pointer receives NO hover dispatch: the hover step of
`CGLCanvas.#draw` calls `#childrenAt(x, y, true, true)`, excluding
click-ignoring shapes from hover resolution as well. -/
theorem hover_ignoreclicks_counterexample :
    ignoredHoverChild.isVisible = true
    ∧ ignoredHoverChild.bounds 0 0 = true
    ∧ ignoredHoverChild.hoverListeners ≠ []
    ∧ hoverPass [ignoredHoverChild] 0 0 = ([], "") :=
  ⟨rfl, rfl, by decide, rfl⟩

/-- Claim C6 (amended): hover resolution excludes invisible shapes AND
click-ignoring shapes alike; every shape hover resolution selects is visible
and has the ignore-clicks flag clear, so a visible shape with ignore-clicks
set never receives hover dispatch. -/
theorem hover_excludes_invisible_and_ignoreclicks (children : List CGLChild) (x y : ℚ)
    (c : CGLChild) (h : hoverTarget children x y = some c) :
    c.isVisible = true ∧ c.ignoreClicks = false := by
  have hc : c ∈ childrenAt children x y true true := mem_of_getLast?_eq _ _ h
  have helig := (List.mem_filter.mp hc).2
  unfold childEligible at helig
  constructor
  · cases hv : c.isVisible <;> simp [hv] at helig ⊢
  · cases hg : c.ignoreClicks <;> simp [hg] at helig ⊢

/-- Witness for the amended C6: in the one-shape scene [hoverableChild] the
hover target at the origin is hoverableChild, and the theorem instantiated
there certifies it is visible with ignore-clicks clear. -/
theorem hover_excludes_invisible_and_ignoreclicks_witness :
    hoverableChild.isVisible = true ∧ hoverableChild.ignoreClicks = false :=
  hover_excludes_invisible_and_ignoreclicks [hoverableChild] 0 0 hoverableChild rfl

/-- Claim C7: when hover resolution finds a shape under the pointer, the
cursor indicator of the surface is set to the cursor token of that shape and
its hover listeners are invoked; when no interactive shape covers the
pointer, the cursor token is reset to the empty string. -/
theorem hover_sets_cursor_feedback (children : List CGLChild) (x y : ℚ) :
    (∀ c, hoverTarget children x y = some c →
        (hoverPass children x y).2 = c.cursor
        ∧ (hoverPass children x y).1 = c.hoverListeners.map fun l => (c.id, l))
    ∧ (hoverTarget children x y = none → (hoverPass children x y).2 = "") := by
  unfold hoverPass hoverTarget
  cases h : (childrenAt children x y true true).getLast? <;> simp [h]

/-- Witness for C7: hovering the one-shape scene [hoverableChild] at the
origin writes its cursor token "grab", and hovering an empty scene writes the
empty string. -/
theorem hover_sets_cursor_feedback_witness :
    (hoverPass [hoverableChild] 0 0).2 = "grab"
    ∧ (hoverPass ([] : List CGLChild) 0 0).2 = "" := by
  constructor
  · have h := ((hover_sets_cursor_feedback [hoverableChild] 0 0).1 hoverableChild rfl).1
    simpa [hoverableChild] using h
  · exact (hover_sets_cursor_feedback [] 0 0).2 rfl

/-- Claim C8: appending or prepending a shape whose owning-canvas reference
is already non-null throws the attachment `CGLException`, and on that error
both the child list of the target canvas and the owning-canvas reference of
the shape are unchanged (the guard runs before any mutation). -/
theorem append_attached_raises_and_preserves (cv : CGLCanvasS) (obj : CGLChild) (k : Nat)
    (h : obj.canvasID = some k) :
    appendChild cv obj
      = (cv, obj, some (.cglException
          ("CGLObject already belongs to a canvas with id: " ++ toString k)))
    ∧ prependChild cv obj
      = (cv, obj, some (.cglException
          ("CGLObject already belongs to a canvas with id: " ++ toString k))) := by
  unfold appendChild prependChild
  rw [h]
  exact ⟨rfl, rfl⟩

/-- Witness for C8: appending or prepending attachedObj (already owned by
canvas 42) to emptyCanvas raises the attachment error and returns both
states unchanged. -/
theorem append_attached_raises_and_preserves_witness :
    appendChild emptyCanvas attachedObj
      = (emptyCanvas, attachedObj, some (.cglException
          ("CGLObject already belongs to a canvas with id: " ++ toString 42)))
    ∧ prependChild emptyCanvas attachedObj
      = (emptyCanvas, attachedObj, some (.cglException
          ("CGLObject already belongs to a canvas with id: " ++ toString 42))) :=
  append_attached_raises_and_preserves emptyCanvas attachedObj 42 rfl

/-- Claim C9: stop is idempotent and never throws (stopping twice leaves no
pending scheduled pass and the second stop changes nothing), and start on an
already-running canvas is a no-op that emits the warning instead of
scheduling a second loop. -/
theorem stop_idempotent_start_guarded (cv : CGLCanvasS) (tid : Nat) :
    (canvasStop (canvasStop cv)).refreshTimeout = none
    ∧ canvasStop (canvasStop cv) = canvasStop cv
    ∧ (canvasIsRunning cv = true → canvasStart cv tid = (cv, true)) := by
  unfold canvasStop canvasStart canvasIsRunning
  cases h : cv.refreshTimeout <;> simp [h]

/-- Witness for C9: stopping runningCanvas twice leaves no pending pass and
the second stop is the identity, and starting it while running returns the
state unchanged with the warning emitted. -/
theorem stop_idempotent_start_guarded_witness :
    (canvasStop (canvasStop runningCanvas)).refreshTimeout = none
    ∧ canvasStop (canvasStop runningCanvas) = canvasStop runningCanvas
    ∧ canvasStart runningCanvas 9 = (runningCanvas, true) := by
  have h := stop_idempotent_start_guarded runningCanvas 9
  exact ⟨h.1, h.2.1, h.2.2 rfl⟩

/-- Claim C10: the ellipse constructor accepts zero axis lengths, and for
every ellipse with a zero horizontal or vertical axis length the containment
test returns false for every point and every rotation: the division by the
zero axis yields Infinity or NaN, the squared sum stays Infinity or NaN, and
neither satisfies `<= 1`; the test is total (JavaScript division never
throws). -/
theorem ellipse_zero_axis_never_contains (s c ex ey hL vL px py : ℚ)
    (hh : 0 ≤ hL) (hv : 0 ≤ vL) (h : hL = 0 ∨ vL = 0) :
    ellipseCtorAccepts hL vL = true
    ∧ ellipseContains s c ex ey hL vL px py = false := by
  constructor
  · simp [ellipseCtorAccepts, not_lt.mpr hh, not_lt.mpr hv]
  · unfold ellipseContains
    rcases h with h | h
    · subst h
      exact jsLe_top_one _ (jsAdd_top_left _ _ (jsSq_jsDiv_zero _))
    · subst h
      exact jsLe_top_one _ (jsAdd_top_right _ _ (jsSq_jsDiv_zero _) (jsSq_ne_negInf _))

/-- Witness for C10: the ellipse at the origin with horizontal axis 0 and
vertical axis 10, unrotated (sin 0, cos 1), is accepted by the constructor
and does not contain the point (3, 4). -/
theorem ellipse_zero_axis_never_contains_witness :
    ellipseCtorAccepts 0 10 = true
    ∧ ellipseContains 0 1 0 0 0 10 3 4 = false :=
  ellipse_zero_axis_never_contains 0 1 0 0 0 10 3 4 (by norm_num) (by norm_num) (Or.inl rfl)

end CookieGL
